import Mathlib

/-!
Shallow embedding of the Grover amplitude-amplification simulator
(src/src/grover.c together with the grover_serial.cpp / grover_parallel.cpp
variants).  The C double arithmetic is modelled exactly: rationals for
concrete computations, reals where 1/sqrt(N) appears.  The C size_t is
modelled as Nat, with the conversion from a signed 64-bit value made
explicit where the source performs such a cast.
-/

namespace Grover

variable {K : Type} [Field K]

/-- Embeds oracle (grover.c line 34): `a[target] = -a[target]`, all other
slots untouched. -/
def oracle (a : List K) (t : Nat) : List K :=
  a.set t (-(a.getD t 0))

/-- The serial left-to-right accumulation of grover.c line 39:
`sum = 0; for i: sum += a[i]`. -/
def cSum (a : List K) : K :=
  a.foldl (· + ·) 0

/-- Embeds diffusion_serial (grover.c lines 37-42): compute the mean by a
single left-to-right pass, then set `a[i] = 2*mean - a[i]` for every i. -/
def diffusion_serial (a : List K) : List K :=
  a.map (fun x => 2 * (cSum a / (a.length : K)) - x)

/-- The contiguous static partition of a list into T chunks used by the
OpenMP `parallel for` reduction in grover.c lines 47-49: the first chunk
holds ceil(len/T) elements, the rest are partitioned recursively, so the
first (len mod T) chunks are one element longer than the others. -/
def splitChunks {α : Type} : Nat → List α → List (List α)
  | 0, _ => []
  | T + 1, l =>
      l.take ((l.length + T) / (T + 1)) ::
        splitChunks T (l.drop ((l.length + T) / (T + 1)))

/-- Embeds diffusion_parallel (grover.c lines 45-53): T workers each sum a
contiguous partition, the partial sums are combined into the global sum,
and after a barrier each worker rewrites its own slots to `2*mean - a[i]`. -/
def diffusion_parallel (T : Nat) (a : List K) : List K :=
  a.map (fun x =>
    2 * (((splitChunks T a).map cSum).foldl (· + ·) 0 / (a.length : K)) - x)

/-- One oracle-then-diffusion round of run_grover_once (grover.c lines
66-72), selecting the serial or the parallel diffusion realization. -/
def groverRound (par : Bool) (T : Nat) (tgt : Nat) (a : List K) : List K :=
  if par then diffusion_parallel T (oracle a tgt)
  else diffusion_serial (oracle a tgt)

/-- The iteration-driver loop of run_grover_once (grover.c lines 66-72):
`iterations` strictly ordered oracle-then-diffusion rounds. -/
def groverRounds (par : Bool) (T : Nat) (tgt : Nat) : Nat → List K → List K
  | 0, a => a
  | k + 1, a => groverRounds par T tgt k (groverRound par T tgt a)

/-- Embeds init_state (grover.c lines 28-31): every slot holds 1/sqrt(N).
Stated over the reals, where the square root is exact. -/
noncomputable def init_state (N : Nat) : List Real :=
  List.replicate N (1 / Real.sqrt N)

/-- Sum of squares of the amplitude vector (the quantity C9 is about). -/
def sumSq (a : List K) : K :=
  (a.map (fun x => x ^ 2)).sum

/-- Embeds is_power_of_two (grover.c line 80): `x && ((x & (x - 1)) == 0)`
on the unsigned 64-bit value. -/
def is_power_of_two (x : Nat) : Bool :=
  x != 0 && (x &&& (x - 1) == 0)

/-- The conversion `(size_t)atoll(argv[2])` performed by grover.c lines 93
and 102: a signed 64-bit value reduced modulo 2^64 into an unsigned one. -/
def toSizeT (i : Int) : Nat :=
  (i % (2 ^ 64 : Int)).toNat

/-- Observable outcome of one single-run invocation: process exit code,
whether the record line was printed and the elapsed value it carries,
whether the vector was allocated, whether an error message went to
stderr, and whether the iteration driver was invoked at all. -/
structure RunOutcome where
  exitCode : Nat
  recordPrinted : Bool
  recordElapsed : Option ℚ
  recordThreads : Option Int
  vectorCreated : Bool
  errorReported : Bool
  runInvoked : Bool
deriving DecidableEq

/-- Embeds the return value of run_grover_once (grover.c lines 56-78) as
C5 observes it: if allocation succeeds the elapsed time is returned,
otherwise a message goes to stderr and the sentinel -1.0 is returned. -/
def run_grover_once_elapsed (allocOk : Bool) (elapsed : ℚ) : ℚ :=
  if allocOk then elapsed else -1

/-- Embeds the `serial <N>` branch of grover.c main (lines 92-100): the
size_t conversion of atoll's value is checked by is_power_of_two; on
failure the branch exits 1 with no record and no vector; on success the
run is dispatched and the branch always prints the record line carrying
whatever run_grover_once returned — the sentinel included — and exits 0. -/
def serialMain (i : Int) (allocOk : Bool) (elapsed : ℚ) : RunOutcome :=
  if is_power_of_two (toSizeT i) then
    { exitCode := 0, recordPrinted := true,
      recordElapsed := some (run_grover_once_elapsed allocOk elapsed),
      recordThreads := some 1,
      vectorCreated := allocOk, errorReported := !allocOk, runInvoked := true }
  else
    { exitCode := 1, recordPrinted := false, recordElapsed := none,
      recordThreads := none,
      vectorCreated := false, errorReported := true, runInvoked := false }

/-- Embeds the `parallel <N> <T>` branch of grover.c main (lines
101-110): same control flow as the serial branch; the thread count T is
read by atoi, never validated, passed straight to the run, and echoed
verbatim in the threads field of the printed record line. -/
def parallelMain (i : Int) (T : Int) (allocOk : Bool) (elapsed : ℚ) :
    RunOutcome :=
  if is_power_of_two (toSizeT i) then
    { exitCode := 0, recordPrinted := true,
      recordElapsed := some (run_grover_once_elapsed allocOk elapsed),
      recordThreads := some T,
      vectorCreated := allocOk, errorReported := !allocOk, runInvoked := true }
  else
    { exitCode := 1, recordPrinted := false, recordElapsed := none,
      recordThreads := none,
      vectorCreated := false, errorReported := true, runInvoked := false }

/-- Embeds the main of the unnamed serial variant (src/unnamed/part_000
lines 31-68): n <= 0 exits 2 with no record; a failed vector allocation
prints ERROR:MEM to stderr and exits 3 with no record and no vector;
otherwise the run proceeds and only the elapsed time is printed. -/
def part000_main (n : Int) (allocOk : Bool) (elapsed : ℚ) : RunOutcome :=
  if n ≤ 0 then
    { exitCode := 2, recordPrinted := false, recordElapsed := none,
      recordThreads := none,
      vectorCreated := false, errorReported := true, runInvoked := false }
  else if !allocOk then
    { exitCode := 3, recordPrinted := false, recordElapsed := none,
      recordThreads := none,
      vectorCreated := false, errorReported := true, runInvoked := false }
  else
    { exitCode := 0, recordPrinted := true, recordElapsed := some elapsed,
      recordThreads := none,
      vectorCreated := true, errorReported := false, runInvoked := true }

/-- A deterministic model of the C library rand: a function from the
hidden generator state to the drawn value paired with the successor
state. -/
def RandFn : Type :=
  Nat → Nat × Nat

/-- The generator state of a process that never called srand: the C
standard specifies that rand then behaves as if srand(1) had been
called. -/
def unseededState : Nat := 1

/-- Models the srand call of grover.c line 119; it is reached only on the
sweep path, after both single-run branches have already returned. -/
def srandModel (seed : Nat) : Nat :=
  seed

/-- The target chosen by grover.c main's single-run branches (lines 96
and 106): `rand() % N` drawn from the unseeded generator. The wall clock
is threaded through so that its non-influence is visible. -/
def singleRunTarget (rand : RandFn) (N : Nat) (_wallclock : Nat) : Nat :=
  (rand unseededState).1 % N

/-- The target used by the sweep for one size (grover.c line 124): the
fixed value N/3 (0 when N = 1), chosen after srand(time) reseeded the
generator. -/
def sweepTarget (N : Nat) (wallclock : Nat) : Nat :=
  let _seed := srandModel wallclock
  if 1 < N then N / 3 else 0

/-- C1: running the driver on N = 4 with initial vector [0.5,0.5,0.5,0.5]
and target 1 gives, after one oracle-then-diffusion round, [0,1,0,0]
(oracle output [0.5,-0.5,0.5,0.5], mean 0.25) and, after a second round
with the same target, [-0.5,0.5,-0.5,-0.5] (oracle output [0,-1,0,0],
mean -0.25); the serial realization and the parallel realization with
T = 1, 2 and 4 all reproduce these exact values. -/
theorem c1_end_to_end :
    oracle ([1/2, 1/2, 1/2, 1/2] : List ℚ) 1 = [1/2, -1/2, 1/2, 1/2] ∧
    cSum (oracle ([1/2, 1/2, 1/2, 1/2] : List ℚ) 1) / 4 = 1/4 ∧
    groverRounds false 1 1 1 ([1/2, 1/2, 1/2, 1/2] : List ℚ) = [0, 1, 0, 0] ∧
    oracle ([0, 1, 0, 0] : List ℚ) 1 = [0, -1, 0, 0] ∧
    cSum (oracle ([0, 1, 0, 0] : List ℚ) 1) / 4 = -1/4 ∧
    groverRounds false 1 1 2 ([1/2, 1/2, 1/2, 1/2] : List ℚ) =
      [-1/2, 1/2, -1/2, -1/2] ∧
    groverRounds true 1 1 1 ([1/2, 1/2, 1/2, 1/2] : List ℚ) = [0, 1, 0, 0] ∧
    groverRounds true 2 1 1 ([1/2, 1/2, 1/2, 1/2] : List ℚ) = [0, 1, 0, 0] ∧
    groverRounds true 4 1 1 ([1/2, 1/2, 1/2, 1/2] : List ℚ) = [0, 1, 0, 0] ∧
    groverRounds true 1 1 2 ([1/2, 1/2, 1/2, 1/2] : List ℚ) =
      [-1/2, 1/2, -1/2, -1/2] ∧
    groverRounds true 2 1 2 ([1/2, 1/2, 1/2, 1/2] : List ℚ) =
      [-1/2, 1/2, -1/2, -1/2] ∧
    groverRounds true 4 1 2 ([1/2, 1/2, 1/2, 1/2] : List ℚ) =
      [-1/2, 1/2, -1/2, -1/2] := by
  norm_num [groverRounds, groverRound, diffusion_serial, diffusion_parallel,
    oracle, cSum, splitChunks]

theorem cSum_eq_sum (a : List K) : cSum a = a.sum := by
  rw [cSum, List.sum_eq_foldl]

theorem splitChunks_flatten {α : Type} :
    ∀ (T : Nat) (l : List α), (splitChunks (T + 1) l).flatten = l := by
  intro T
  induction T with
  | zero =>
      intro l
      simp [splitChunks]
  | succ T ih =>
      intro l
      have step : splitChunks (T + 1 + 1) l =
          l.take ((l.length + (T + 1)) / (T + 1 + 1)) ::
            splitChunks (T + 1) (l.drop ((l.length + (T + 1)) / (T + 1 + 1))) :=
        rfl
      rw [step, List.flatten_cons, ih, List.take_append_drop]

theorem parallelSum_eq (T : Nat) (hT : 1 ≤ T) (a : List K) :
    ((splitChunks T a).map cSum).foldl (· + ·) 0 = cSum a := by
  obtain ⟨U, rfl⟩ : ∃ U, T = U + 1 := ⟨T - 1, by omega⟩
  rw [show (cSum : List K → K) = List.sum from funext cSum_eq_sum,
    ← List.sum_eq_foldl, ← List.sum_flatten, splitChunks_flatten]

theorem diffusion_parallel_eq_serial (T : Nat) (hT : 1 ≤ T) (a : List K) :
    diffusion_parallel T a = diffusion_serial a := by
  unfold diffusion_parallel diffusion_serial
  rw [parallelSum_eq T hT]

theorem sum_map_reflect (c : K) (l : List K) :
    (l.map (fun x => c - x)).sum = (l.length : K) * c - l.sum := by
  induction l with
  | nil => simp
  | cons x xs ih =>
      simp only [List.map_cons, List.sum_cons, ih, List.length_cons]
      push_cast
      ring

theorem diffusion_serial_length (a : List K) :
    (diffusion_serial a).length = a.length := by
  simp [diffusion_serial]

theorem diffusion_serial_sum (a : List K) (h : (a.length : K) ≠ 0) :
    (diffusion_serial a).sum = a.sum := by
  rw [diffusion_serial, sum_map_reflect, cSum_eq_sum]
  field_simp
  ring

theorem diffusion_serial_involutive (a : List K) (h : (a.length : K) ≠ 0) :
    diffusion_serial (diffusion_serial a) = a := by
  have hmean : cSum (diffusion_serial a) / ((diffusion_serial a).length : K) =
      cSum a / (a.length : K) := by
    rw [cSum_eq_sum, cSum_eq_sum, diffusion_serial_sum a h,
      diffusion_serial_length]
  conv_lhs => rw [diffusion_serial]
  rw [hmean, diffusion_serial, List.map_map]
  have hcomp : ((fun x => 2 * (cSum a / (a.length : K)) - x) ∘
      (fun x => 2 * (cSum a / (a.length : K)) - x)) = (id : K → K) := by
    funext x
    simp only [Function.comp_apply, id_eq]
    ring
  rw [hcomp, List.map_id]

/-- C2: for every vector a of length at least 1, applying diffusion twice
with no intervening oracle returns a unchanged, exactly, for the serial
realization and for the parallel realization with every thread count
T at least 1. -/
theorem c2_diffusion_involution (a : List ℚ) (T : Nat)
    (hN : 1 ≤ a.length) (hT : 1 ≤ T) :
    diffusion_serial (diffusion_serial a) = a ∧
    diffusion_parallel T (diffusion_parallel T a) = a := by
  have h : (a.length : ℚ) ≠ 0 := Nat.cast_ne_zero.mpr (by omega)
  refine ⟨diffusion_serial_involutive a h, ?_⟩
  rw [diffusion_parallel_eq_serial T hT, diffusion_parallel_eq_serial T hT,
    diffusion_serial_involutive a h]

/-- Witness for C2 at the concrete vector [1, 2] and T = 2. -/
theorem c2_witness :
    1 ≤ ([1, 2] : List ℚ).length ∧ 1 ≤ 2 ∧
    (diffusion_serial (diffusion_serial ([1, 2] : List ℚ)) = [1, 2] ∧
      diffusion_parallel 2 (diffusion_parallel 2 ([1, 2] : List ℚ)) = [1, 2]) :=
  ⟨by simp, by omega, c2_diffusion_involution [1, 2] 2 (by simp) (by omega)⟩

/-- C3: for every input vector, the parallel diffusion with T = 1 produces
exactly the same result as the serial diffusion: with one worker the
single chunk is the whole vector, so the reduction coincides with the
serial left-to-right accumulation. -/
theorem c3_parallel_one_eq_serial (a : List ℚ) :
    diffusion_parallel 1 a = diffusion_serial a :=
  diffusion_parallel_eq_serial 1 (le_refl 1) a

/-- C6: for every vector and every in-range target, the oracle negates the
slot at the target and leaves every other slot (and the length) unchanged. -/
theorem c6_oracle_frame (a : List ℚ) (t : Nat) (h : t < a.length) :
    (oracle a t).length = a.length ∧
    (oracle a t).getD t 0 = -(a.getD t 0) ∧
    ∀ j, j ≠ t → (oracle a t).getD j 0 = a.getD j 0 := by
  refine ⟨by simp [oracle], ?_, ?_⟩
  · rw [oracle, List.getD_eq_getElem?_getD, List.getElem?_set_self',
      List.getD_eq_getElem?_getD]
    simp [List.getElem?_eq_getElem h]
  · intro j hj
    rw [oracle, List.getD_eq_getElem?_getD, List.getElem?_set_ne (by omega),
      ← List.getD_eq_getElem?_getD]

/-- Witness for C6 at the vector [3, 5, 7] with target 1. -/
theorem c6_witness :
    1 < ([3, 5, 7] : List ℚ).length ∧
    ((oracle ([3, 5, 7] : List ℚ) 1).length = ([3, 5, 7] : List ℚ).length ∧
      (oracle ([3, 5, 7] : List ℚ) 1).getD 1 0 =
        -(([3, 5, 7] : List ℚ).getD 1 0) ∧
      ∀ j, j ≠ 1 → (oracle ([3, 5, 7] : List ℚ) 1).getD j 0 =
        ([3, 5, 7] : List ℚ).getD j 0) :=
  ⟨by simp, c6_oracle_frame [3, 5, 7] 1 (by simp)⟩

/-- C8: for a single-element vector, diffusion is a no-op, the oracle
negates the element, and k driver rounds multiply the element by (-1)^k,
never changing its magnitude. -/
theorem c8_single_element (x : ℚ) (k : Nat) :
    diffusion_serial [x] = [x] ∧ oracle [x] 0 = [-x] ∧
    groverRounds false 1 0 k [x] = [(-1) ^ k * x] := by
  refine ⟨?_, ?_, ?_⟩
  · simp [diffusion_serial, cSum]
    ring
  · simp [oracle, List.getD]
  · induction k generalizing x with
    | zero => simp [groverRounds]
    | succ k ih =>
        have h1 : groverRound false 1 0 [x] = [-x] := by
          simp [groverRound, oracle, List.getD, diffusion_serial, cSum]
          ring
        rw [show groverRounds false 1 0 (k + 1) [x] =
            groverRounds false 1 0 k (groverRound false 1 0 [x]) from rfl,
          h1, ih (-x), pow_succ]
        congr 1
        ring

theorem sumSq_cons (x : K) (xs : List K) :
    sumSq (x :: xs) = x ^ 2 + sumSq xs := by
  simp [sumSq]

theorem sumSq_oracle (a : List K) (t : Nat) :
    sumSq (oracle a t) = sumSq a := by
  rw [oracle]
  induction a generalizing t with
  | nil => simp
  | cons x xs ih =>
      cases t with
      | zero => simp [sumSq_cons, List.getD]
      | succ t =>
          simp only [List.set_cons_succ, List.getD_cons_succ, sumSq_cons, ih]

theorem sum_map_reflect_sq (c : K) (l : List K) :
    (l.map (fun x => (c - x) ^ 2)).sum =
      (l.length : K) * c ^ 2 - 2 * c * l.sum + (l.map (fun x => x ^ 2)).sum := by
  induction l with
  | nil => simp
  | cons x xs ih =>
      simp only [List.map_cons, List.sum_cons, ih, List.length_cons]
      push_cast
      ring

theorem sumSq_diffusion_serial (a : List K) (h : (a.length : K) ≠ 0) :
    sumSq (diffusion_serial a) = sumSq a := by
  simp only [sumSq, diffusion_serial, List.map_map]
  have hc : ((fun x => x ^ 2) ∘ (fun x => 2 * (cSum a / (a.length : K)) - x)) =
      (fun x => ((2 * (cSum a / (a.length : K))) - x) ^ 2) := rfl
  rw [hc, sum_map_reflect_sq, cSum_eq_sum]
  field_simp
  ring

theorem sumSq_diffusion_serial_real (a : List Real) :
    sumSq (diffusion_serial a) = sumSq a := by
  cases a with
  | nil => rfl
  | cons x xs =>
      exact sumSq_diffusion_serial (x :: xs) (Nat.cast_ne_zero.mpr (by simp))

theorem sumSq_groverRounds (a : List Real) (tgt k : Nat) :
    sumSq (groverRounds false 1 tgt k a) = sumSq a := by
  induction k generalizing a with
  | zero => rfl
  | succ k ih =>
      rw [show groverRounds false 1 tgt (k + 1) a =
          groverRounds false 1 tgt k (groverRound false 1 tgt a) from rfl,
        ih, show groverRound false 1 tgt a = diffusion_serial (oracle a tgt)
          from rfl,
        sumSq_diffusion_serial_real, sumSq_oracle]

theorem sumSq_init_state (N : Nat) (h : 1 ≤ N) : sumSq (init_state N) = 1 := by
  have hN : (0 : Real) < N := Nat.cast_pos.mpr (by omega)
  rw [sumSq, init_state, List.map_replicate, List.sum_replicate, nsmul_eq_mul,
    div_pow, one_pow, Real.sq_sqrt (le_of_lt hN)]
  field_simp

/-- C9: in exact real arithmetic the oracle and the serial diffusion each
preserve the sum of squares of the amplitude vector, and hence the driver,
started from the uniform state of any size N at least 1, keeps the sum of
squares equal to 1 for every iteration count. -/
theorem c9_norm_preserved (a : List Real) (t N tgt k : Nat) (hN : 1 ≤ N) :
    sumSq (oracle a t) = sumSq a ∧
    sumSq (diffusion_serial a) = sumSq a ∧
    sumSq (groverRounds false 1 tgt k (init_state N)) = 1 :=
  ⟨sumSq_oracle a t, sumSq_diffusion_serial_real a, by
    rw [sumSq_groverRounds, sumSq_init_state N hN]⟩

/-- Witness for C9 at the vector [1], N = 1, target 0, k = 1. -/
theorem c9_witness :
    1 ≤ 1 ∧
    (sumSq (oracle [(1 : Real)] 0) = sumSq [(1 : Real)] ∧
      sumSq (diffusion_serial [(1 : Real)]) = sumSq [(1 : Real)] ∧
      sumSq (groverRounds false 1 0 1 (init_state 1)) = 1) :=
  ⟨Nat.le_refl 1, c9_norm_preserved [(1 : Real)] 0 1 0 1 (Nat.le_refl 1)⟩

/-- C4 counterexample: with N = 4 and T = 0 or T = -1 the parallel branch
of grover.c raises no error, dispatches the run anyway, and exits 0 —
the negation of the claimed pre-dispatch InvalidThreadCount error with
non-zero exit. -/
theorem c4_counterexample :
    (parallelMain 4 0 true 0).exitCode = 0 ∧
    (parallelMain 4 (-1) true 0).exitCode = 0 ∧
    (parallelMain 4 0 true 0).runInvoked = true ∧
    (parallelMain 4 0 true 0).errorReported = false := by
  decide

/-- C4 amended: grover.c performs no thread-count validation: for every
T, including 0 and -1, whenever N passes the power-of-two check the
parallel branch raises no error, dispatches the run, prints the record
line echoing the given T in its threads field, and exits 0. -/
theorem c4_no_thread_validation (i T : Int) (allocOk : Bool) (e : ℚ)
    (h : is_power_of_two (toSizeT i) = true) :
    (parallelMain i T allocOk e).exitCode = 0 ∧
    (parallelMain i T allocOk e).runInvoked = true ∧
    (parallelMain i T allocOk e).recordPrinted = true ∧
    (parallelMain i T allocOk e).recordThreads = some T := by
  refine ⟨?_, ?_, ?_, ?_⟩ <;> simp [parallelMain, h]

/-- Witness for the amended C4 at N = 4, T = 0. -/
theorem c4_witness :
    is_power_of_two (toSizeT 4) = true ∧
    ((parallelMain 4 0 true 0).exitCode = 0 ∧
      (parallelMain 4 0 true 0).runInvoked = true ∧
      (parallelMain 4 0 true 0).recordPrinted = true ∧
      (parallelMain 4 0 true 0).recordThreads = some 0) :=
  ⟨by decide, c4_no_thread_validation 4 0 true 0 (by decide)⟩

/-- C5: on allocation failure run_grover_once does report the sentinel
-1.0 to its caller with no vector created, and the part_000 variant exits
3 with no record, as claimed; but grover.c main ignores the sentinel: with
N = 4 and allocation failing it still prints the record line carrying
elapsed -1.0 and exits 0, contradicting the claimed non-zero exit with no
record. -/
theorem c5_allocation_failure :
    run_grover_once_elapsed false 0 = -1 ∧
    (part000_main 4 false 0).exitCode = 3 ∧
    (part000_main 4 false 0).recordPrinted = false ∧
    (part000_main 4 false 0).vectorCreated = false ∧
    (serialMain 4 false 0).exitCode = 0 ∧
    (serialMain 4 false 0).recordPrinted = true ∧
    (serialMain 4 false 0).recordElapsed = some (-1) ∧
    (serialMain 4 false 0).vectorCreated = false := by
  refine ⟨rfl, ?_, ?_, ?_, ?_, ?_, ?_, ?_⟩ <;>
    simp [part000_main, serialMain, run_grover_once_elapsed, is_power_of_two,
      toSizeT] <;> decide

/-- C7: the serial branch rejects N = 0, N = 6 and N = -4 with exit 1, no
record and no vector, as claimed; but the negative input -2^63 converts
to the size_t value 2^63, which passes the power-of-two test, so the
branch dispatches the run instead of exiting non-zero — the claim fails
for that negative N. -/
theorem c7_size_validation :
    (serialMain 0 true 0).exitCode = 1 ∧
    (serialMain 0 true 0).recordPrinted = false ∧
    (serialMain 0 true 0).vectorCreated = false ∧
    (serialMain 6 true 0).exitCode = 1 ∧
    (serialMain 6 true 0).recordPrinted = false ∧
    (serialMain (-4) true 0).exitCode = 1 ∧
    toSizeT (-(2 ^ 63)) = 2 ^ 63 ∧
    is_power_of_two (toSizeT (-(2 ^ 63))) = true ∧
    (serialMain (-(2 ^ 63)) true 0).runInvoked = true := by
  decide

/-- C10: in single-run mode the target index is rand() % N drawn from the
unseeded generator — srand is reached only on the sweep path, after the
single-run branches have returned — so two invocations with the same
arguments at different wall-clock instants choose the same target and
drive the vector through identical states. -/
theorem c10_single_run_deterministic (rand : RandFn) (N wc1 wc2 k : Nat) :
    singleRunTarget rand N wc1 = singleRunTarget rand N wc2 ∧
    groverRounds false 1 (singleRunTarget rand N wc1) k (init_state N) =
      groverRounds false 1 (singleRunTarget rand N wc2) k (init_state N) :=
  ⟨rfl, rfl⟩

end Grover
